import Mathlib

/-!
Verification of the extraction-and-crawl control engine of the
ai-enhanced-cashback-scraper repository.

The development shallowly embeds the decision logic of
`src/scrapers/token_optimized_scraper_v2.py` (URL admission filter, URL
validator, fetch-outcome classification inside `scrape_page`, and the
success-seeking crawl loop of `scrape_with_intelligence_level`) and of
`src/ai_agents/ai_agents.py` (the extraction strategy chain of
`AIAgentOrchestrator.extract_data`, the three agents, attempt logging, and
the pattern learner).  External collaborators (HTTP fetch, DOM parsing,
the inference backend, the file system) are modelled as explicit inputs:
a fetch outcome per attempt, a parsed backend reply, and per-agent DOM
query results.  Machine arithmetic in the source is Python arbitrary
precision, so counters are `Nat` and confidences are `ℚ`.
-/

/-- Does `p` occur as a contiguous run inside `l`?  (Needle first.) -/
def listContainsRun (p : List Char) : List Char → Bool
  | [] => p.isEmpty
  | c :: rest => p.isPrefixOf (c :: rest) || listContainsRun p rest

/-- Python substring containment: the expression `p in s` on strings
(`"" in s` is `True` in Python, matching the empty-needle case here). -/
def pyIn (p s : String) : Bool :=
  listContainsRun p.toList s.toList

/-- Python `str.count` for a single-character needle (counts occurrences). -/
def pyCountChar (s : String) (c : Char) : Nat :=
  s.toList.count c

/-- Python `str.lower()` (character-wise lowering). -/
def pyLower (s : String) : String :=
  String.mk (s.data.map Char.toLower)

/-- Python `str.strip()`: remove surrounding whitespace. -/
def pyStrip (s : String) : String :=
  String.mk
    (((s.data.dropWhile Char.isWhitespace).reverse.dropWhile
        Char.isWhitespace).reverse)

/-- The deny-list of `TokenOptimizedAIScraper.should_skip_url`
(token_optimized_scraper_v2.py lines 463-487), verbatim. -/
def skip_patterns : List String :=
  ["/notfound", "/error", "/404", "/maintenance", ".xml", ".css", ".js",
   ".pdf", ".jpg", ".png", ".gif", "/api/", "/admin/", "/login", "/logout",
   "/search?", "/category/", "/tag/", "/page/", "javascript:", "mailto:",
   "tel:", "#"]

/-- First stage of `should_skip_url` (lines 489-494): some deny-list
pattern occurs in the lowercased URL. -/
def skipPatternRule (url : String) : Bool :=
  let url_lower := pyLower url
  skip_patterns.any (fun p => pyIn p url_lower)

/-- Second stage of `should_skip_url` (lines 496-498): the URL is longer
than 200 characters. -/
def urlLengthRule (url : String) : Bool :=
  decide (200 < url.length)

/-- Third stage of `should_skip_url` (lines 500-502): excessive
query-parameter counts, i.e. more than one question mark or more than
five ampersands. -/
def queryParamRule (url : String) : Bool :=
  decide (1 < pyCountChar url '?') || decide (5 < pyCountChar url '&')

/-- `TokenOptimizedAIScraper.should_skip_url` (lines 461-504): the URL
admission filter; `admit url` of the spec is its negation. -/
def should_skip_url (url : String) : Bool :=
  if skipPatternRule url then true
  else if urlLengthRule url then true
  else if queryParamRule url then true
  else false

/-- Python integer/float division that raises `ZeroDivisionError` on a
zero denominator.  Only the raising behaviour matters here: the quotient
is interpolated into a log line and discarded. -/
def pyDivCheck (a b : Nat) : Except String Nat :=
  if b = 0 then Except.error "ZeroDivisionError" else Except.ok (a / b)

/-- `TokenOptimizedAIScraper.validate_url_batch` (lines 428-459).  The
per-URL HEAD probe is the external fetcher, modelled by `check`; a URL is
kept exactly when its probe reports status 200 and no exception.  The
final log line computes `len(valid_urls)/len(urls)*100`, which raises
`ZeroDivisionError` when `urls` is empty.  (The worker pool collects
results in completion order; no claim here depends on the order of the
returned list, so submission order is used.) -/
def validate_url_batch (check : String → Bool) (urls : List String) :
    Except String (List String) :=
  let valid_urls := urls.filter check
  match pyDivCheck (valid_urls.length * 100) urls.length with
  | Except.error e => Except.error e
  | Except.ok _ => Except.ok valid_urls

/-- The `error_indicators` list of `scrape_page`
(token_optimized_scraper_v2.py lines 551-556), verbatim. -/
def error_indicators : List String :=
  ["404", "not found", "page not found", "error occurred", "access denied",
   "store unavailable", "not available", "no longer available",
   "currently unavailable", "this store is not available", "store not found",
   "shop unavailable", "shop not found", "no longer exists",
   "no longer active", "inactive store", "inactive shop", "closed store",
   "closed shop"]

/-- The error-page phrasing test of `scrape_page` (lines 557-558): some
indicator occurs in the lowercased body. -/
def containsErrorIndicator (body : String) : Bool :=
  let content_lower := pyLower body
  error_indicators.any (fun ind => pyIn ind content_lower)

/-- Outcome of one fetch attempt by the external page fetcher, as
distinguished by `scrape_page`'s handlers: an HTTP status with a body, or
one of the exception classes of its `except` clauses. -/
inductive FetchOutcome where
  | http (status : Nat) (body : String)
  | timeout
  | connectionError
  | requestError
  | otherException
deriving DecidableEq

/-- One successful page record as the crawl loop sees it: the fields of
the result dict that the control logic reads. -/
structure PageResult where
  merchant : String
  confidence : ℚ
  tokens_used : Nat
deriving DecidableEq

/-- Observable trace of one `scrape_page` call: its return value, the
bodies handed to `ai_extract`, and the `time.sleep` durations (seconds)
in order. -/
structure ScrapeTrace where
  result : Option PageResult
  aiBodies : List String
  sleeps : List Nat
deriving DecidableEq

/-- The backoff sleep at the top of a `scrape_page` attempt (lines
511-513): retries (attempt > 0) sleep `2 ** attempt` seconds first. -/
def backoffSleeps (attempt : Nat) (sleeps : List Nat) : List Nat :=
  if 0 < attempt then sleeps ++ [2 ^ attempt] else sleeps

/-- The attempt loop of `TokenOptimizedAIScraper.scrape_page` (lines
506-599).  `fetch a` is the outcome of the GET on attempt `a`; `ai` is
`ai_extract` on the fetched body.  `fuel` counts the loop iterations left
(`range(max_retries + 1)`); the fuel-0 branch is the `return None` after
the loop (line 599), unreachable from `scrape_page` since every retrying
branch checks `attempt < max_retries` first.

Note on lines 550-560 of the source: the error-indicator block is
indented into the body of the `len(response.text.strip()) < 100` branch
*after* its `return None`, so Python never executes it; the embedding
reproduces the executed control flow, in which a 200 response with a long
body reaches `ai_extract` regardless of `containsErrorIndicator`. -/
def scrape_go (fetch : Nat → FetchOutcome) (ai : String → Option PageResult)
    (max_retries : Nat) :
    Nat → Nat → List String → List Nat → ScrapeTrace
  | 0, _, bodies, sleeps => ⟨none, bodies, sleeps⟩
  | fuel + 1, attempt, bodies, sleeps =>
    let sl := backoffSleeps attempt sleeps
    match fetch attempt with
    | FetchOutcome.http status body =>
      if status = 404 then ⟨none, bodies, sl⟩
      else if status = 403 then ⟨none, bodies, sl⟩
      else if status = 500 then
        if attempt < max_retries then
          scrape_go fetch ai max_retries fuel (attempt + 1) bodies sl
        else ⟨none, bodies, sl⟩
      else if status = 429 then
        if attempt < max_retries then
          scrape_go fetch ai max_retries fuel (attempt + 1) bodies (sl ++ [5])
        else ⟨none, bodies, sl⟩
      else if status ≠ 200 then ⟨none, bodies, sl⟩
      else if (pyStrip body).length < 100 then ⟨none, bodies, sl⟩
      else
        match ai body with
        | some r => ⟨some r, bodies ++ [body], sl⟩
        | none => ⟨none, bodies ++ [body], sl⟩
    | FetchOutcome.timeout =>
      if max_retries ≤ attempt then ⟨none, bodies, sl⟩
      else scrape_go fetch ai max_retries fuel (attempt + 1) bodies sl
    | FetchOutcome.connectionError =>
      if max_retries ≤ attempt then ⟨none, bodies, sl⟩
      else scrape_go fetch ai max_retries fuel (attempt + 1) bodies sl
    | FetchOutcome.requestError =>
      if max_retries ≤ attempt then ⟨none, bodies, sl⟩
      else scrape_go fetch ai max_retries fuel (attempt + 1) bodies sl
    | FetchOutcome.otherException => ⟨none, bodies, sl⟩

/-- `TokenOptimizedAIScraper.scrape_page` (lines 506-599): run the
attempt loop from attempt 0 with `max_retries + 1` iterations available. -/
def scrape_page (fetch : Nat → FetchOutcome) (ai : String → Option PageResult)
    (max_retries : Nat) : ScrapeTrace :=
  scrape_go fetch ai max_retries (max_retries + 1) 0 [] []

/-- The budget test of the crawl loop (line 689):
`if token_budget and tokens_used_session >= token_budget`.  Python
truthiness makes both `None` and `0` skip the comparison. -/
def budgetReached (budget : Option Nat) (tokens : Nat) : Bool :=
  match budget with
  | none => false
  | some b => if b = 0 then false else decide (b ≤ tokens)

/-- The success-seeking crawl loop of
`TokenOptimizedAIScraper.scrape_with_intelligence_level` (lines 673-714):
iterate the validated URLs; break once `len(results) >= target_results`
or the budget test fires; otherwise count the URL as processed, and on a
successful scrape append the result and add its `tokens_used` to the
session counter. -/
def crawl_go (budget : Option Nat) (target : Nat) :
    List (Option PageResult) → List PageResult → Nat → Nat →
    List PageResult × Nat × Nat
  | [], results, tokens, processed => (results, tokens, processed)
  | page :: rest, results, tokens, processed =>
    if target ≤ results.length then (results, tokens, processed)
    else if budgetReached budget tokens then (results, tokens, processed)
    else
      match page with
      | none => crawl_go budget target rest results tokens (processed + 1)
      | some r =>
        crawl_go budget target rest (results ++ [r])
          (tokens + r.tokens_used) (processed + 1)

/-- Crawl phase of `scrape_with_intelligence_level` (lines 601-726) over
an already-validated URL list: `pages` gives, per validated URL in order,
the `scrape_page` result (sitemap fetching, pattern filtering and batch
validation happen before the loop and are external I/O here).  Returns
(results, session tokens, processed-URL count). -/
def scrape_with_intelligence_level (pages : List (Option PageResult))
    (budget : Option Nat) (target : Nat) : List PageResult × Nat × Nat :=
  crawl_go budget target pages [] 0 0

/-- `ExtractionResult` (ai_agents.py lines 32-43): the fields read by the
control logic; `additional_data` is an opaque map the chain never
inspects and is omitted. -/
structure ExtractionResult where
  merchant_name : String
  cashback_offer : String
  confidence_score : ℚ
  extraction_method : String
deriving DecidableEq

/-- One entry of a page's attempt log, as built by
`BaseAIAgent.log_attempt` (ai_agents.py lines 59-68). -/
structure AttemptRecord where
  timestamp : ℚ
  method : String
  success : Bool
  confidence : ℚ
  url : String
deriving DecidableEq

/-- `ScrapingContext` (ai_agents.py lines 18-29): the parsed `soup` is
the external DOM parser's output; agents' DOM queries on it are passed
as explicit inputs to each agent below. -/
structure ScrapingContext where
  url : String
  html_content : String
  previous_attempts : List AttemptRecord
deriving DecidableEq

/-- `BaseAIAgent.log_attempt` (ai_agents.py lines 59-68): append one
record (timestamp, method, success flag, confidence — 0.0 for a null
result — and URL) to the context's attempt log. -/
def log_attempt (ctx : ScrapingContext) (result : Option ExtractionResult)
    (method : String) (now : ℚ) : ScrapingContext :=
  { ctx with
    previous_attempts := ctx.previous_attempts ++
      [{ timestamp := now, method := method, success := result.isSome,
         confidence := (result.map ExtractionResult.confidence_score).getD 0,
         url := ctx.url }] }

/-- The inference backend's reply to the LLM extraction agent, after the
JSON-parsing step of `LLMExtractionAgent.process` (lines 148-167): the
API call threw, the reply was not JSON, or it parsed to a record whose
fields may each be absent.  `confidence` is `none` when the key is
absent (Python `result_data.get("confidence", 0.8)` then yields 0.8). -/
inductive LLMResponse where
  | apiError
  | badJSON (text : String)
  | parsed (merchant_name : Option String) (cashback_offer : Option String)
      (confidence : Option ℚ) (reasoning : String)
deriving DecidableEq

/-- Python truthiness of `dict.get(key)` for a string field: present and
non-empty. -/
def pyTruthyStr : Option String → Bool
  | none => false
  | some s => decide (s ≠ "")

/-- `LLMExtractionAgent.process` (ai_agents.py lines 129-173).  With no
API key it returns `None` without logging (lines 131-133).  Otherwise:
an API exception or unparsable JSON logs a null attempt; a parsed reply
with truthy `merchant_name` and `cashback_offer` builds a result whose
`confidence_score` is the backend's reported value, defaulting to 0.8
when the key is absent — no clamping — and logs it; a parsed reply
missing either field logs a null attempt. -/
def llm_process (has_api_key : Bool) (resp : LLMResponse)
    (ctx : ScrapingContext) (now : ℚ) :
    ScrapingContext × Option ExtractionResult :=
  if has_api_key = false then (ctx, none)
  else
    match resp with
    | LLMResponse.apiError => (log_attempt ctx none "LLM" now, none)
    | LLMResponse.badJSON _ => (log_attempt ctx none "LLM" now, none)
    | LLMResponse.parsed m o c _ =>
      if pyTruthyStr m && pyTruthyStr o then
        let r : ExtractionResult :=
          { merchant_name := m.getD "", cashback_offer := o.getD "",
            confidence_score := c.getD (mkRat 8 10),
            extraction_method := "LLM" }
        (log_attempt ctx (some r) "LLM" now, some r)
      else (log_attempt ctx none "LLM" now, none)

/-- `PatternLearningAgent.process` (ai_agents.py lines 236-264).  The
DOM work per learned pattern (find elements, extract a merchant string,
search nearby for a cashback-shaped substring) is the external parser;
`candidates` lists, per pattern-element tried in order, the
(merchant, cashback) pair when both were found.  The first hit yields a
result with fixed confidence 0.7 and logs it; exhaustion logs a null
attempt.  A pattern whose matching threw is a `none` entry (the
`except ... continue`). -/
def pattern_process : List (Option (String × String)) → ScrapingContext →
    ℚ → ScrapingContext × Option ExtractionResult
  | [], ctx, now => (log_attempt ctx none "Pattern_Learning" now, none)
  | none :: rest, ctx, now => pattern_process rest ctx now
  | some (m, cb) :: _, ctx, now =>
    let r : ExtractionResult :=
      { merchant_name := m, cashback_offer := cb,
        confidence_score := mkRat 7 10,
        extraction_method := "Pattern_Learning" }
    (log_attempt ctx (some r) "Pattern_Learning" now, some r)

/-- `AdaptiveSelectorAgent.process` (ai_agents.py lines 315-336).
`merchant` and `cashback` are the outcomes of `_find_merchant_name` and
`_find_cashback_offer` on the page's DOM.  When no merchant name is
found the agent returns `None` immediately — without calling
`log_attempt` (lines 320-321).  Otherwise a missing cashback offer
becomes the placeholder string, and the result (fixed confidence 0.6) is
logged and returned. -/
def adaptive_process (ctx : ScrapingContext) (merchant : Option String)
    (cashback : Option String) (now : ℚ) :
    ScrapingContext × Option ExtractionResult :=
  match merchant with
  | none => (ctx, none)
  | some m =>
    let cb := match cashback with
      | none => "No Cashback Info"
      | some c => c
    let r : ExtractionResult :=
      { merchant_name := m, cashback_offer := cb,
        confidence_score := mkRat 6 10,
        extraction_method := "Adaptive_Selector" }
    (log_attempt ctx (some r) "Adaptive_Selector" now, some r)

/-- Outcome of one agent's `process` call as seen by the orchestrator's
`try` block (ai_agents.py lines 465-479): the call threw, or returned a
result or `None`. -/
inductive AgentOutcome where
  | throws
  | returns (r : Option ExtractionResult)
deriving DecidableEq

/-- The non-null results among a list of agent outcomes, in order. -/
def okResults : List AgentOutcome → List ExtractionResult
  | [] => []
  | AgentOutcome.throws :: rest => okResults rest
  | AgentOutcome.returns none :: rest => okResults rest
  | AgentOutcome.returns (some r) :: rest => r :: okResults rest

/-- The selection loop of `AIAgentOrchestrator.extract_data` (ai_agents.py
lines 461-479): thread the best result and its confidence through the
agent outcomes; a throwing agent or a null result is skipped; a result
strictly beating the current best confidence replaces it, and if the new
best confidence exceeds 0.9 the loop breaks. -/
def chain_go : List AgentOutcome → Option ExtractionResult → ℚ →
    Option ExtractionResult
  | [], best, _ => best
  | AgentOutcome.throws :: rest, best, bc => chain_go rest best bc
  | AgentOutcome.returns none :: rest, best, bc => chain_go rest best bc
  | AgentOutcome.returns (some r) :: rest, best, bc =>
    if bc < r.confidence_score then
      if mkRat 9 10 < r.confidence_score then some r
      else chain_go rest (some r) r.confidence_score
    else chain_go rest best bc

/-- `AIAgentOrchestrator.extract_data` (ai_agents.py lines 453-487),
selection part: start with no best result and best confidence 0.0. -/
def extract_data (outcomes : List AgentOutcome) : Option ExtractionResult :=
  chain_go outcomes none 0

/-- A learned selector pattern as built by
`PatternLearningAgent._extract_patterns` (ai_agents.py lines 216-234). -/
structure LearnedPattern where
  tag : String
  cls : List String
  id : String
  text_pattern : String
deriving DecidableEq

/-- The pattern learner's persisted state: the `merchant_selectors` list
of `learned_patterns.json` plus a count of `save_patterns` calls
(observing writes to the store). -/
structure PatternStore where
  merchant_selectors : List LearnedPattern
  save_count : Nat
deriving DecidableEq

/-- `PatternLearningAgent.learn_from_success` (ai_agents.py lines
201-214): a result with confidence below 0.7 returns with the store
untouched and unsaved; otherwise the extracted patterns are appended
(skipping duplicates already in the list) and the store is saved.
`extracted` is the output of `_extract_patterns` on the page's DOM. -/
def learn_from_success (store : PatternStore)
    (extracted : List LearnedPattern) (result : ExtractionResult) :
    PatternStore :=
  if result.confidence_score < mkRat 7 10 then store
  else
    { merchant_selectors :=
        extracted.foldl
          (fun acc p => if acc.contains p then acc else acc ++ [p])
          store.merchant_selectors,
      save_count := store.save_count + 1 }

/-- The learning step of `AIAgentOrchestrator.extract_data` (ai_agents.py
lines 481-485): learning is invoked only when a best result exists and
its confidence exceeds 0.7. -/
def orchestrator_learn (best : Option ExtractionResult)
    (store : PatternStore) (extracted : List LearnedPattern) :
    PatternStore :=
  match best with
  | none => store
  | some r =>
    if mkRat 7 10 < r.confidence_score then learn_from_success store extracted r
    else store

/-- The URL of the spec's admission-filter test vector. -/
def c9URL : String := "https://site/store/notfound?x=1&y=2&z=3&w=4&v=5&u=6"

/-- A 107-character HTTP-200 body that matches the error-page phrasing
list (it contains "store unavailable") yet passes the 100-character
minimum-content check. -/
def errBody : String :=
  "store unavailable" ++ String.mk (List.replicate 90 'x')

/-- A fresh scraping context with an empty attempt log. -/
def ctx0 : ScrapingContext :=
  { url := "https://x/store/a", html_content := "<html>",
    previous_attempts := [] }

/-- A backend reply whose self-reported confidence is 1.5, with both
extraction fields present and truthy. -/
def badResp : LLMResponse :=
  LLMResponse.parsed (some "Shop") (some "5% cashback") (some (mkRat 3 2)) "r"

/-- A well-formed strategy result with confidence 0.5. -/
def goodResult : ExtractionResult :=
  { merchant_name := "Shop", cashback_offer := "5%",
    confidence_score := mkRat 1 2, extraction_method := "LLM" }

/-- The chain's running best confidence, when a best result exists, is
that result's confidence; the returned result is either the incoming
best or one of the non-null outcomes. -/
theorem chain_go_mem :
    ∀ (l : List AgentOutcome) (best : Option ExtractionResult) (bc : ℚ)
      (r : ExtractionResult), chain_go l best bc = some r →
      best = some r ∨ r ∈ okResults l := by
  intro l
  induction l with
  | nil => intro best bc r h; exact Or.inl h
  | cons o rest ih =>
    intro best bc r h
    cases o with
    | throws =>
      rcases ih best bc r h with h1 | h1
      · exact Or.inl h1
      · exact Or.inr (by simpa [okResults] using h1)
    | returns x =>
      cases x with
      | none =>
        rcases ih best bc r h with h1 | h1
        · exact Or.inl h1
        · exact Or.inr (by simpa [okResults] using h1)
      | some y =>
        simp only [chain_go] at h
        by_cases hlt : bc < y.confidence_score
        · rw [if_pos hlt] at h
          by_cases h9 : mkRat 9 10 < y.confidence_score
          · rw [if_pos h9] at h
            injection h with h2
            exact Or.inr (by simp [okResults, ← h2])
          · rw [if_neg h9] at h
            rcases ih (some y) y.confidence_score r h with h1 | h1
            · injection h1 with h2
              exact Or.inr (by simp [okResults, ← h2])
            · exact Or.inr (by simpa [okResults] using Or.inr h1)
        · rw [if_neg hlt] at h
          rcases ih best bc r h with h1 | h1
          · exact Or.inl h1
          · exact Or.inr (by simpa [okResults] using Or.inr h1)

/-- When every non-null outcome is skipped or null, the chain returns
the incoming best result unchanged. -/
theorem chain_go_all_null :
    ∀ (l : List AgentOutcome) (best : Option ExtractionResult) (bc : ℚ),
      okResults l = [] → chain_go l best bc = best := by
  intro l
  induction l with
  | nil => intro best bc _; rfl
  | cons o rest ih =>
    intro best bc h
    cases o with
    | throws => exact ih best bc (by simpa [okResults] using h)
    | returns x =>
      cases x with
      | none => exact ih best bc (by simpa [okResults] using h)
      | some y => simp [okResults] at h

/-- When no non-null outcome exceeds confidence 0.9, the chain's answer
dominates the running confidence and every non-null outcome. -/
theorem chain_go_max :
    ∀ (l : List AgentOutcome) (best : Option ExtractionResult) (bc : ℚ),
      (∀ x ∈ okResults l, x.confidence_score ≤ mkRat 9 10) →
      (∀ b, best = some b → bc = b.confidence_score) →
      ∀ r, chain_go l best bc = some r →
        bc ≤ r.confidence_score ∧
          ∀ x ∈ okResults l, x.confidence_score ≤ r.confidence_score := by
  intro l
  induction l with
  | nil =>
    intro best bc _ hinv r h
    refine ⟨le_of_eq (hinv r h), ?_⟩
    intro x hx
    simp [okResults] at hx
  | cons o rest ih =>
    intro best bc hbound hinv r h
    cases o with
    | throws =>
      have hb : ∀ x ∈ okResults rest, x.confidence_score ≤ mkRat 9 10 := by
        intro x hx; exact hbound x (by simpa [okResults] using hx)
      rcases ih best bc hb hinv r h with ⟨h1, h2⟩
      exact ⟨h1, by simpa [okResults] using h2⟩
    | returns x =>
      cases x with
      | none =>
        have hb : ∀ x ∈ okResults rest, x.confidence_score ≤ mkRat 9 10 := by
          intro x hx; exact hbound x (by simpa [okResults] using hx)
        rcases ih best bc hb hinv r h with ⟨h1, h2⟩
        exact ⟨h1, by simpa [okResults] using h2⟩
      | some y =>
        have hy : y.confidence_score ≤ mkRat 9 10 :=
          hbound y (by simp [okResults])
        have hb : ∀ x ∈ okResults rest, x.confidence_score ≤ mkRat 9 10 := by
          intro x hx; exact hbound x (by simp [okResults, hx])
        simp only [chain_go] at h
        by_cases hlt : bc < y.confidence_score
        · rw [if_pos hlt] at h
          have h9 : ¬ mkRat 9 10 < y.confidence_score := not_lt.mpr hy
          rw [if_neg h9] at h
          rcases ih (some y) y.confidence_score hb
              (by intro b hb2; cases hb2; rfl) r h with ⟨h1, h2⟩
          refine ⟨le_of_lt (lt_of_lt_of_le hlt h1), ?_⟩
          intro x hx
          rcases (by simpa [okResults] using hx : x = y ∨ x ∈ okResults rest)
            with h3 | h3
          · exact h3 ▸ h1
          · exact h2 x h3
        · rw [if_neg hlt] at h
          rcases ih best bc hb hinv r h with ⟨h1, h2⟩
          refine ⟨h1, ?_⟩
          intro x hx
          rcases (by simpa [okResults] using hx : x = y ∨ x ∈ okResults rest)
            with h3 | h3
          · exact h3 ▸ le_trans (not_lt.mp hlt) h1
          · exact h2 x h3

/-- As long as the running best confidence is at most 0.9, the first
outcome whose confidence exceeds 0.9 ends the chain: the outcomes after
it are never consulted. -/
theorem chain_go_early :
    ∀ (l post : List AgentOutcome) (best : Option ExtractionResult) (bc : ℚ)
      (r : ExtractionResult), bc ≤ mkRat 9 10 →
      mkRat 9 10 < r.confidence_score →
      chain_go (l ++ AgentOutcome.returns (some r) :: post) best bc =
        chain_go (l ++ [AgentOutcome.returns (some r)]) best bc := by
  intro l
  induction l with
  | nil =>
    intro post best bc r hbc h9
    have hlt : bc < r.confidence_score := lt_of_le_of_lt hbc h9
    simp only [List.nil_append, chain_go, if_pos hlt, if_pos h9]
  | cons o rest ih =>
    intro post best bc r hbc h9
    cases o with
    | throws => simpa [chain_go] using ih post best bc r hbc h9
    | returns x =>
      cases x with
      | none => simpa [chain_go] using ih post best bc r hbc h9
      | some y =>
        simp only [List.cons_append, chain_go]
        by_cases hlt : bc < y.confidence_score
        · rw [if_pos hlt, if_pos hlt]
          by_cases hy9 : mkRat 9 10 < y.confidence_score
          · rw [if_pos hy9, if_pos hy9]
          · rw [if_neg hy9, if_neg hy9]
            exact ih post (some y) y.confidence_score r (not_lt.mp hy9) h9
        · rw [if_neg hlt, if_neg hlt]
          exact ih post best bc r hbc h9

/-- Budget invariant of the crawl loop: with a positive ceiling `b`, the
session token counter stays at most `b - 1 + M` when every successful
page costs at most `M`, because the counter is only incremented after
the pre-page check has seen it strictly below `b`. -/
theorem crawl_go_tokens_le (b M target : Nat) (hb : 1 ≤ b) :
    ∀ (pages : List (Option PageResult)) (results : List PageResult)
      (tokens processed : Nat),
      (∀ r : PageResult, some r ∈ pages → r.tokens_used ≤ M) →
      tokens ≤ b - 1 + M →
      (crawl_go (some b) target pages results tokens processed).2.1 ≤
        b - 1 + M := by
  intro pages
  induction pages with
  | nil => intro results tokens processed _ ht; simpa [crawl_go] using ht
  | cons p rest ih =>
    intro results tokens processed hp ht
    have hprest : ∀ r : PageResult, some r ∈ rest → r.tokens_used ≤ M := by
      intro r hr; exact hp r (List.mem_cons_of_mem _ hr)
    by_cases h1 : target ≤ results.length
    · simpa [crawl_go, h1] using ht
    · by_cases h2 : budgetReached (some b) tokens = true
      · simpa [crawl_go, h1, h2] using ht
      · have hlt : tokens < b := by
          by_contra hge
          have hble : b ≤ tokens := le_of_not_lt hge
          have hb0 : ¬ b = 0 := by omega
          simp [budgetReached, hb0, hble] at h2
        cases p with
        | none =>
          simpa [crawl_go, h1, h2] using
            ih results tokens (processed + 1) hprest ht
        | some r =>
          have hrM : r.tokens_used ≤ M := hp r (List.mem_cons_self _ _)
          have ht2 : tokens + r.tokens_used ≤ b - 1 + M := by omega
          simpa [crawl_go, h1, h2] using
            ih (results ++ [r]) (tokens + r.tokens_used) (processed + 1)
              hprest ht2

/-- C1 (counterexample): the strategy chain returns, unchanged, a result
the LLM agent built from a backend reply whose self-reported confidence
is 1.5 — a produced `ExtractionResult` whose confidence score is not in
[0,1], because `LLMExtractionAgent.process` does not clamp the backend's
value. -/
theorem C1_counterexample :
    (extract_data [AgentOutcome.returns (llm_process true badResp ctx0 0).2]).map
        ExtractionResult.confidence_score = some (mkRat 3 2) ∧
    ¬ (mkRat 3 2 ≤ 1) :=
  ⟨by decide, by decide⟩

/-- C1 (amended): every result the chain returns has confidence in [0,1]
provided every non-null strategy result fed to it does; the
pattern-learning and adaptive-selector strategies always emit the fixed
in-range confidences 0.7 and 0.6, while the LLM strategy passes the
backend's self-reported confidence through unclamped (defaulting to 0.8
when the key is absent), so its results are in range exactly when the
backend's value is. -/
theorem C1_theorem :
    (∀ (outcomes : List AgentOutcome) (r : ExtractionResult),
      (∀ x ∈ okResults outcomes,
        0 ≤ x.confidence_score ∧ x.confidence_score ≤ 1) →
      extract_data outcomes = some r →
      0 ≤ r.confidence_score ∧ r.confidence_score ≤ 1) ∧
    (∀ (m o : Option String) (c : Option ℚ) (rs : String)
       (ctx : ScrapingContext) (now : ℚ) (r : ExtractionResult),
      (llm_process true (LLMResponse.parsed m o c rs) ctx now).2 = some r →
      r.confidence_score = c.getD (mkRat 8 10)) ∧
    (∀ (cands : List (Option (String × String))) (ctx : ScrapingContext)
       (now : ℚ) (r : ExtractionResult),
      (pattern_process cands ctx now).2 = some r →
      r.confidence_score = mkRat 7 10) ∧
    (∀ (ctx : ScrapingContext) (merchant cashback : Option String) (now : ℚ)
       (r : ExtractionResult),
      (adaptive_process ctx merchant cashback now).2 = some r →
      r.confidence_score = mkRat 6 10) ∧
    ((0 : ℚ) ≤ mkRat 7 10 ∧ mkRat 7 10 ≤ 1 ∧
      (0 : ℚ) ≤ mkRat 6 10 ∧ mkRat 6 10 ≤ 1) := by
  refine ⟨?_, ?_, ?_, ?_, by decide⟩
  · intro outcomes r h hr
    rcases chain_go_mem outcomes none 0 r hr with h1 | h1
    · cases h1
    · exact h r h1
  · intro m o c rs ctx now r hr
    simp only [llm_process] at hr
    by_cases ht : (pyTruthyStr m && pyTruthyStr o) = true
    · simp only [if_neg (by decide : ¬ true = false), ht, if_pos] at hr
      injection hr with h2
      rw [← h2]
    · simp [if_neg (by decide : ¬ true = false), ht] at hr
  · intro cands
    induction cands with
    | nil => intro ctx now r hr; simp [pattern_process] at hr
    | cons c rest ih =>
      intro ctx now r hr
      cases c with
      | none => exact ih ctx now r (by simpa [pattern_process] using hr)
      | some p =>
        simp only [pattern_process] at hr
        injection hr with h2
        rw [← h2]
  · intro ctx merchant cashback now r hr
    cases merchant with
    | none => simp [adaptive_process] at hr
    | some m =>
      simp only [adaptive_process] at hr
      injection hr with h2
      rw [← h2]

/-- C1 (witness): the chain applied to one in-range result returns an
in-range confidence. -/
theorem C1_witness :
    0 ≤ goodResult.confidence_score ∧ goodResult.confidence_score ≤ 1 :=
  C1_theorem.1 [AgentOutcome.returns (some goodResult)] goodResult
    (by decide) (by decide)

/-- C2: a fetch returning HTTP 200 with a 107-character body that
matches the error-page phrasing ("store unavailable") is NOT skipped:
`scrape_page` hands the body to `ai_extract` (the indicator check of
lines 551-560 sits, mis-indented, behind the short-body branch's
`return None` and never runs), contradicting the claimed SKIP. -/
theorem C2_theorem :
    containsErrorIndicator errBody = true ∧
    100 ≤ (pyStrip errBody).length ∧
    scrape_page (fun _ => FetchOutcome.http 200 errBody) (fun _ => none) 2 =
      ⟨none, [errBody], []⟩ :=
  ⟨by decide, by decide, by decide⟩

/-- C3 (counterexample): with the budget ceiling set to 0 the crawl loop
never stops on budget — Python's `if token_budget and ...` treats 0 as
unset — so two successful 100-token pages drive session usage to 200,
exceeding ceiling 0 by more than one call's 100 tokens. -/
theorem C3_counterexample :
    (scrape_with_intelligence_level
        [some ⟨"m", mkRat 1 2, 100⟩, some ⟨"m", mkRat 1 2, 100⟩]
        (some 0) 10).2.1 = 200 ∧
    ¬ ((200 : Nat) ≤ 0 + 100) :=
  ⟨by decide, by decide⟩

/-- C3 (amended): for every crawl run with a positive budget ceiling
`b`, session token usage never exceeds the ceiling by more than one
call's usage (at most `b - 1 + M` when every successful page costs at
most `M` tokens), and the loop stops before processing any further page
as soon as accumulated usage is at or above the ceiling. -/
theorem C3_theorem :
    (∀ (pages : List (Option PageResult)) (b M target : Nat), 1 ≤ b →
      (∀ r : PageResult, some r ∈ pages → r.tokens_used ≤ M) →
      (scrape_with_intelligence_level pages (some b) target).2.1 ≤
        b - 1 + M) ∧
    (∀ (b target tokens : Nat) (page : Option PageResult)
       (rest : List (Option PageResult)) (results : List PageResult)
       (processed : Nat), 1 ≤ b → b ≤ tokens →
      crawl_go (some b) target (page :: rest) results tokens processed =
        (results, tokens, processed)) := by
  constructor
  · intro pages b M target hb hp
    exact crawl_go_tokens_le b M target hb pages [] 0 0 hp (Nat.zero_le _)
  · intro b target tokens page rest results processed hb hle
    have hb0 : ¬ b = 0 := by omega
    by_cases h1 : target ≤ results.length
    · simp [crawl_go, h1]
    · simp [crawl_go, h1, budgetReached, hb0, hle]

/-- C3 (witness): one 100-token page under ceiling 1 keeps session usage
within one call of the ceiling. -/
theorem C3_witness :
    (scrape_with_intelligence_level [some ⟨"m", mkRat 1 2, 100⟩]
        (some 1) 5).2.1 ≤ 1 - 1 + 100 :=
  C3_theorem.1 [some ⟨"m", mkRat 1 2, 100⟩] 1 100 5 (by decide)
    (by intro r hr
        simp only [List.mem_singleton, Option.some.injEq] at hr
        rw [hr])

/-- C4: fetch-outcome classification in `scrape_page`: 404 and 403 end
the call at once with None; a timeout, connection error, HTTP 500 or
HTTP 429 before the final attempt proceeds to the next attempt (whose
backoff sleep is `2 ** attempt`, with an extra fixed 5-second delay for
429); a 500 or timeout on the final attempt yields None; and concretely,
with 2 retries, all-timeouts gives None after backoff sleeps [2, 4],
while all-429 gives None after sleeps [5, 2, 5, 4]. -/
theorem C4_theorem :
    (∀ (fetch : Nat → FetchOutcome) (ai : String → Option PageResult)
       (maxR : Nat) (body : String), fetch 0 = FetchOutcome.http 404 body →
      scrape_page fetch ai maxR = ⟨none, [], []⟩) ∧
    (∀ (fetch : Nat → FetchOutcome) (ai : String → Option PageResult)
       (maxR : Nat) (body : String), fetch 0 = FetchOutcome.http 403 body →
      scrape_page fetch ai maxR = ⟨none, [], []⟩) ∧
    (∀ (fetch : Nat → FetchOutcome) (ai : String → Option PageResult)
       (maxR fuel attempt : Nat) (bodies : List String) (sleeps : List Nat),
      attempt < maxR → fetch attempt = FetchOutcome.timeout →
      scrape_go fetch ai maxR (fuel + 1) attempt bodies sleeps =
        scrape_go fetch ai maxR fuel (attempt + 1) bodies
          (backoffSleeps attempt sleeps)) ∧
    (∀ (fetch : Nat → FetchOutcome) (ai : String → Option PageResult)
       (maxR fuel attempt : Nat) (bodies : List String) (sleeps : List Nat),
      attempt < maxR → fetch attempt = FetchOutcome.connectionError →
      scrape_go fetch ai maxR (fuel + 1) attempt bodies sleeps =
        scrape_go fetch ai maxR fuel (attempt + 1) bodies
          (backoffSleeps attempt sleeps)) ∧
    (∀ (fetch : Nat → FetchOutcome) (ai : String → Option PageResult)
       (maxR fuel attempt : Nat) (bodies : List String) (sleeps : List Nat)
       (body : String),
      attempt < maxR → fetch attempt = FetchOutcome.http 500 body →
      scrape_go fetch ai maxR (fuel + 1) attempt bodies sleeps =
        scrape_go fetch ai maxR fuel (attempt + 1) bodies
          (backoffSleeps attempt sleeps)) ∧
    (∀ (fetch : Nat → FetchOutcome) (ai : String → Option PageResult)
       (maxR fuel attempt : Nat) (bodies : List String) (sleeps : List Nat)
       (body : String),
      attempt < maxR → fetch attempt = FetchOutcome.http 429 body →
      scrape_go fetch ai maxR (fuel + 1) attempt bodies sleeps =
        scrape_go fetch ai maxR fuel (attempt + 1) bodies
          (backoffSleeps attempt sleeps ++ [5])) ∧
    (∀ (fetch : Nat → FetchOutcome) (ai : String → Option PageResult)
       (maxR fuel : Nat) (bodies : List String) (sleeps : List Nat)
       (body : String), fetch maxR = FetchOutcome.http 500 body →
      scrape_go fetch ai maxR (fuel + 1) maxR bodies sleeps =
        ⟨none, bodies, backoffSleeps maxR sleeps⟩) ∧
    (∀ (fetch : Nat → FetchOutcome) (ai : String → Option PageResult)
       (maxR fuel : Nat) (bodies : List String) (sleeps : List Nat),
      fetch maxR = FetchOutcome.timeout →
      scrape_go fetch ai maxR (fuel + 1) maxR bodies sleeps =
        ⟨none, bodies, backoffSleeps maxR sleeps⟩) ∧
    scrape_page (fun _ => FetchOutcome.timeout) (fun _ => none) 2 =
      ⟨none, [], [2, 4]⟩ ∧
    scrape_page (fun _ => FetchOutcome.http 429 "too many requests") (fun _ => none) 2 =
      ⟨none, [], [5, 2, 5, 4]⟩ := by
  refine ⟨?_, ?_, ?_, ?_, ?_, ?_, ?_, ?_, by decide, by decide⟩
  · intro fetch ai maxR body h
    simp [scrape_page, scrape_go, h, backoffSleeps]
  · intro fetch ai maxR body h
    simp [scrape_page, scrape_go, h, backoffSleeps]
  · intro fetch ai maxR fuel attempt bodies sleeps hlt h
    have : ¬ maxR ≤ attempt := by omega
    simp [scrape_go, h, this]
  · intro fetch ai maxR fuel attempt bodies sleeps hlt h
    have : ¬ maxR ≤ attempt := by omega
    simp [scrape_go, h, this]
  · intro fetch ai maxR fuel attempt bodies sleeps body hlt h
    simp [scrape_go, h, hlt]
  · intro fetch ai maxR fuel attempt bodies sleeps body hlt h
    simp [scrape_go, h, hlt]
  · intro fetch ai maxR fuel bodies sleeps body h
    simp [scrape_go, h]
  · intro fetch ai maxR fuel bodies sleeps h
    simp [scrape_go, h]

/-- C4 (witness): a 404 on the first attempt returns None with no AI
call and no sleeps. -/
theorem C4_witness :
    scrape_page (fun _ => FetchOutcome.http 404 "gone") (fun _ => none) 2 =
      ⟨none, [], []⟩ :=
  C4_theorem.1 (fun _ => FetchOutcome.http 404 "gone") (fun _ => none) 2
    "gone" rfl

/-- C5: the extraction strategy chain, over the ordered agent outcomes:
when every strategy throws or returns null the chain returns null (no
exception propagates); when no result exceeds confidence 0.9, the
returned result is one of the non-null results and dominates all of them
(the highest-confidence non-null result, first-wins on ties); and an
outcome whose confidence exceeds 0.9 stops the chain — the strategies
after it are never consulted. -/
theorem C5_theorem :
    (∀ (outcomes : List AgentOutcome), okResults outcomes = [] →
      extract_data outcomes = none) ∧
    (∀ (outcomes : List AgentOutcome) (r : ExtractionResult),
      (∀ x ∈ okResults outcomes, x.confidence_score ≤ mkRat 9 10) →
      extract_data outcomes = some r →
      r ∈ okResults outcomes ∧
        ∀ x ∈ okResults outcomes,
          x.confidence_score ≤ r.confidence_score) ∧
    (∀ (pre post : List AgentOutcome) (r : ExtractionResult),
      mkRat 9 10 < r.confidence_score →
      extract_data (pre ++ AgentOutcome.returns (some r) :: post) =
        extract_data (pre ++ [AgentOutcome.returns (some r)])) := by
  refine ⟨?_, ?_, ?_⟩
  · intro outcomes h
    exact chain_go_all_null outcomes none 0 h
  · intro outcomes r hb hr
    constructor
    · rcases chain_go_mem outcomes none 0 r hr with h1 | h1
      · cases h1
      · exact h1
    · exact (chain_go_max outcomes none 0 hb (by intro b hb2; cases hb2)
        r hr).2
  · intro pre post r h9
    exact chain_go_early pre post none 0 r (by decide) h9

/-- C5 (witness): a chain in which one strategy throws and the other
returns null yields null. -/
theorem C5_witness :
    extract_data [AgentOutcome.throws, AgentOutcome.returns none] = none :=
  C5_theorem.1 [AgentOutcome.throws, AgentOutcome.returns none] rfl

/-- C6: with a target of 3 successful extractions and no budget ceiling,
over 5 validated URLs whose first two scrapes are skipped and whose last
three succeed — with any merchant names, confidences and token costs —
the crawl loop returns exactly those 3 results and a processed-URL
count of 5. -/
theorem C6_theorem :
    ∀ (m3 m4 m5 : String) (c3 c4 c5 : ℚ) (t3 t4 t5 : Nat),
      (scrape_with_intelligence_level
          [none, none, some ⟨m3, c3, t3⟩, some ⟨m4, c4, t4⟩,
            some ⟨m5, c5, t5⟩] none 3).1 =
        [⟨m3, c3, t3⟩, ⟨m4, c4, t4⟩, ⟨m5, c5, t5⟩] ∧
      (scrape_with_intelligence_level
          [none, none, some ⟨m3, c3, t3⟩, some ⟨m4, c4, t4⟩,
            some ⟨m5, c5, t5⟩] none 3).1.length = 3 ∧
      (scrape_with_intelligence_level
          [none, none, some ⟨m3, c3, t3⟩, some ⟨m4, c4, t4⟩,
            some ⟨m5, c5, t5⟩] none 3).2.2 = 5 := by
  intros
  exact ⟨rfl, rfl, rfl⟩

/-- C7: the pattern learner never persists a pattern from a result with
confidence below 0.7 — `learn_from_success` leaves the store untouched
and unsaved for such a result — and the orchestrator's learning step
leaves the store untouched unless a best result exists with confidence
strictly above 0.7. -/
theorem C7_theorem :
    (∀ (store : PatternStore) (extracted : List LearnedPattern)
       (result : ExtractionResult),
      result.confidence_score < mkRat 7 10 →
      learn_from_success store extracted result = store) ∧
    (∀ (store : PatternStore) (extracted : List LearnedPattern),
      orchestrator_learn none store extracted = store) ∧
    (∀ (store : PatternStore) (extracted : List LearnedPattern)
       (r : ExtractionResult), r.confidence_score ≤ mkRat 7 10 →
      orchestrator_learn (some r) store extracted = store) := by
  refine ⟨?_, ?_, ?_⟩
  · intro store extracted result h
    simp [learn_from_success, h]
  · intro store extracted
    rfl
  · intro store extracted r h
    simp [orchestrator_learn, not_lt.mpr h]

/-- C7 (witness): a confidence-0.5 result leaves a concrete store
unchanged. -/
theorem C7_witness :
    learn_from_success ⟨[], 0⟩ [⟨"h1", ["title"], "", "Shop"⟩] goodResult =
      ⟨[], 0⟩ :=
  C7_theorem.1 ⟨[], 0⟩ [⟨"h1", ["title"], "", "Shop"⟩] goodResult (by decide)

/-- C8 (counterexample): the adaptive-selector strategy, failing to find
a merchant name on a page, returns null WITHOUT appending an entry to
the page's attempt log — the log stays empty after the attempt. -/
theorem C8_counterexample :
    (adaptive_process ctx0 none (some "5% cashback") 0).1.previous_attempts
        = [] ∧
    (adaptive_process ctx0 none (some "5% cashback") 0).2 = none :=
  ⟨rfl, rfl⟩

/-- C8 (amended): the LLM strategy (when an API key is configured) and
the pattern-learning strategy append exactly one entry to the page's
attempt log per attempt, success or null; the adaptive-selector appends
one entry — method name, success flag, confidence, timestamp, URL — only
when it finds a merchant name, and returns null without appending when
it does not; the LLM strategy with no API key likewise returns null
without appending. -/
theorem C8_theorem :
    (∀ (resp : LLMResponse) (ctx : ScrapingContext) (now : ℚ),
      ((llm_process true resp ctx now).1).previous_attempts.length =
        ctx.previous_attempts.length + 1) ∧
    (∀ (resp : LLMResponse) (ctx : ScrapingContext) (now : ℚ),
      (llm_process false resp ctx now).1 = ctx ∧
        (llm_process false resp ctx now).2 = none) ∧
    (∀ (cands : List (Option (String × String))) (ctx : ScrapingContext)
       (now : ℚ),
      ((pattern_process cands ctx now).1).previous_attempts.length =
        ctx.previous_attempts.length + 1) ∧
    (∀ (ctx : ScrapingContext) (m : String) (cashback : Option String)
       (now : ℚ),
      ((adaptive_process ctx (some m) cashback now).1).previous_attempts =
        ctx.previous_attempts ++
          [⟨now, "Adaptive_Selector", true, mkRat 6 10, ctx.url⟩]) ∧
    (∀ (ctx : ScrapingContext) (cashback : Option String) (now : ℚ),
      (adaptive_process ctx none cashback now).1 = ctx ∧
        (adaptive_process ctx none cashback now).2 = none) := by
  refine ⟨?_, ?_, ?_, ?_, ?_⟩
  · intro resp ctx now
    cases resp with
    | apiError => simp [llm_process, log_attempt]
    | badJSON t => simp [llm_process, log_attempt]
    | parsed m o c rs =>
      simp only [llm_process]
      by_cases ht : (pyTruthyStr m && pyTruthyStr o) = true
      · simp [ht, log_attempt]
      · simp [ht, log_attempt]
  · intro resp ctx now
    exact ⟨rfl, rfl⟩
  · intro cands
    induction cands with
    | nil => intro ctx now; simp [pattern_process, log_attempt]
    | cons c rest ih =>
      intro ctx now
      cases c with
      | none => simpa [pattern_process] using ih ctx now
      | some p => simp [pattern_process, log_attempt]
  · intro ctx m cashback now
    rfl
  · intro ctx cashback now
    exact ⟨rfl, rfl⟩

/-- C9 (counterexample): the spec's admission-filter test vector is
indeed rejected, but not on account of its query-parameter count: the
query-parameter rule (more than one question mark or more than five
ampersands) does not fire on it — the URL has exactly one question mark
and exactly five ampersands. -/
theorem C9_counterexample :
    should_skip_url c9URL = true ∧ queryParamRule c9URL = false :=
  ⟨by decide, by decide⟩

/-- C9 (amended): `should_skip_url` returns true for the test vector on
account of the deny-list pattern stage — the substring "/notfound"
occurs in it — while the query-parameter rule does not fire (the URL has
exactly five ampersands, below the more-than-five threshold). -/
theorem C9_theorem :
    should_skip_url c9URL = true ∧ skipPatternRule c9URL = true ∧
    pyIn "/notfound" (pyLower c9URL) = true ∧
    queryParamRule c9URL = false ∧ pyCountChar c9URL '&' = 5 ∧
    pyCountChar c9URL '?' = 1 := by
  refine ⟨by decide, by decide, by decide, by decide, by decide, by decide⟩

/-- C10: `validate_url_batch` on an empty URL list raises
`ZeroDivisionError` (the success-rate log divides by `len(urls)`) rather
than returning an empty list; on any non-empty list it totals, returning
exactly the URLs whose probe succeeded. -/
theorem C10_theorem :
    (∀ (check : String → Bool),
      validate_url_batch check [] = Except.error "ZeroDivisionError") ∧
    (∀ (check : String → Bool) (urls : List String), urls ≠ [] →
      validate_url_batch check urls = Except.ok (urls.filter check)) := by
  constructor
  · intro check
    rfl
  · intro check urls h
    have hlen : ¬ urls.length = 0 := by
      simpa [List.length_eq_zero] using h
    simp [validate_url_batch, pyDivCheck, hlen]

/-- C10 (witness): a singleton URL list with a succeeding probe returns
that URL. -/
theorem C10_witness :
    validate_url_batch (fun _ => true) ["https://a/store/b"] =
      Except.ok ["https://a/store/b"] :=
  C10_theorem.2 (fun _ => true) ["https://a/store/b"] (by decide)
